import Mathlib

/-!
Verification of the `cpixel` converter core (`src/converter.rs`) against its
natural-language specification.

The visible source is `src/converter.rs` alone.  The collaborating modules of
the same crate (`dimensions.rs` with `Dimensions::fit_with_locked_ratio`,
`bitmap_image.rs` with `BitmapImage::resize`, `cpixel.rs` with `Cpixel` and
`CpixelConverter`) are not in the visible source; where their behaviour
matters they are modelled from the specification and marked as such in their
doc comments.  Machine integers (`u8`, `u16`, `usize`) are embedded as `Nat`
with explicit `% 2 ^ w` where the Rust code can truncate.
-/

/-- The `Dimensions` value type of the crate: a plain 2D size
(height, width as unsigned integers). -/
structure Dimensions where
  height : Nat
  width : Nat
deriving DecidableEq

/-- Modelled from the spec: `Dimensions::fit_with_locked_ratio` lives in
`dimensions.rs`, which is not part of the visible source.  Spec 4.1: compute
the scale factor required to fit height (`bounds.height / source.height`) and
the one required to fit width (`bounds.width / source.width`); apply the
smaller of the two to both dimensions and round down (floor).  If `source` or
`bounds` has a zero dimension the result is `{0,0}`.  The comparison
`bounds.height / source.height ≤ bounds.width / source.width` of exact
rationals is expressed by cross-multiplication, and applying the scale
`bounds.height / source.height` to `source.height` itself yields exactly
`bounds.height` (likewise for width).  The Rust name ends in a suffix this
development cannot use, hence the spelling `fit_locked` here. -/
def Dimensions.fit_locked (source bounds : Dimensions) : Dimensions :=
  if source.height = 0 ∨ source.width = 0 then ⟨0, 0⟩
  else if bounds.height = 0 ∨ bounds.width = 0 then ⟨0, 0⟩
  else if bounds.height * source.width ≤ bounds.width * source.height then
    ⟨bounds.height, source.width * bounds.height / source.height⟩
  else
    ⟨source.height * bounds.width / source.width, bounds.width⟩

/-- The `BitmapImage<T>` data model: dimensions plus a row-major buffer. -/
structure BitmapImage (T : Type) where
  dimensions : Dimensions
  buffer : List T
deriving DecidableEq

/-- Row-major pixel access with a default of 0 outside the buffer. -/
def BitmapImage.pixel (img : BitmapImage Nat) (r c : Nat) : Nat :=
  img.buffer.getD (r * img.dimensions.width + c) 0

/-- Modelled from the spec: the external resizer consumed by the crate
(`BitmapImage::resize` in `bitmap_image.rs`, not part of the visible source).
Spec 6: the output has `dimensions == target`, pixel values are resampled
from the source (modelled as nearest-neighbour/floor sampling), and a zero
target dimension yields an empty bitmap. -/
def BitmapImage.resize (img : BitmapImage Nat) (target : Dimensions) :
    BitmapImage Nat :=
  { dimensions := target
    buffer :=
      (List.range target.height).flatMap fun r =>
        (List.range target.width).map fun c =>
          img.pixel (r * img.dimensions.height / target.height)
            (c * img.dimensions.width / target.width) }

/-- `Cpixel`: one output cell's glyph, an opaque character value. -/
structure Cpixel where
  chr : Char
deriving DecidableEq

/-- `<u8 as Brightness>::min` from `src/converter.rs`: `u8::MIN`. -/
def u8.min : Nat := 0

/-- `<u8 as Brightness>::max` from `src/converter.rs`: `u8::MAX`. -/
def u8.max : Nat := 255

/-- `<u8 as Brightness>::average` from `src/converter.rs`:
`(self as u16 + rhs as u16 / 2) as u8`.  Both operands are widened to `u16`,
only the right one is integer-divided by 2, the sum is taken in `u16`
(`% 2 ^ 16`) and the result is narrowed to `u8`, which in Rust truncates
(`% 2 ^ 8`). -/
def u8.average (a b : Nat) : Nat :=
  ((a + b / 2) % 65536) % 256

/-- Modelled from the spec: the block reduction inside the external
cell-converter (spec 4.3: each block is reduced to one brightness value using
the Brightness capability's `average`; the fold order is left open). -/
def reduceBlock (ps : List Nat) : Nat :=
  match ps with
  | [] => 0
  | x :: xs => xs.foldl u8.average x

/-- Modelled from the spec: the pixels of the cell block at cell row `bR`,
cell column `bC` of an image partitioned into non-overlapping blocks of
`cell` pixels (spec 4.3). -/
def blockPixels (img : BitmapImage Nat) (cell : Dimensions) (bR bC : Nat) :
    List Nat :=
  (List.range cell.height).flatMap fun i =>
    (List.range cell.width).map fun j =>
      img.pixel (bR * cell.height + i) (bC * cell.width + j)

/-- Modelled from the spec: `CpixelConverter::convert_one` from `cpixel.rs`,
which is not part of the visible source.  Spec 6 and 4.3: partition the input
bitmap into non-overlapping blocks of `cell` pixels, reduce each block to one
brightness value with `average`, map each reduced value to a `Cpixel` through
the externally owned glyph ramp (here a parameter `ramp`); the output
dimensions equal the input dimensions divided by `cell`. -/
def CpixelConverter.convert_one (ramp : Nat → Char) (img : BitmapImage Nat)
    (cell : Dimensions) : BitmapImage Cpixel :=
  { dimensions := ⟨img.dimensions.height / cell.height,
                   img.dimensions.width / cell.width⟩
    buffer :=
      (List.range (img.dimensions.height / cell.height)).flatMap fun bR =>
        (List.range (img.dimensions.width / cell.width)).map fun bC =>
          ⟨ramp (reduceBlock (blockPixels img cell bR bC))⟩ }

/-- A concrete two-glyph ramp consistent with the crate's tests
(brightness 0 maps to a space, brightness 255 maps to `N`); used only to
instantiate theorems at concrete inputs. -/
def ramp0 (b : Nat) : Char :=
  if b < 128 then ' ' else 'N'

/-- `Converter<T>` from `src/converter.rs`.  The pixel type is fixed to the
one Brightness instance of the crate (`u8`, embedded as `Nat`); the state of
the external cell-converter (`CpixelConverter<T>`, not part of the visible
source) is an abstract type `σ`. -/
structure Converter (σ : Type) where
  converter : σ
  cpixel_dimensions : Dimensions
  output_constraints : Dimensions
  input_image_dimensions : Dimensions
  output_dimensions : Dimensions
  maximize_contrast : Bool

/-- `Converter::generate_output_dimensions` from `src/converter.rs`:
`screen_in_pixels` multiplies the constraints (in cells) by the cell
footprint (in pixels per cell), then the image dimensions are aspect-fitted
into it. -/
def Converter.generate_output_dimensions
    (image_dimensions output_constraints cpixel_dimensions : Dimensions) :
    Dimensions :=
  let screen_in_pixels : Dimensions :=
    ⟨output_constraints.height * cpixel_dimensions.height,
     output_constraints.width * cpixel_dimensions.width⟩
  Dimensions.fit_locked image_dimensions screen_in_pixels

/-- `Converter::new` from `src/converter.rs`.  `dflt` stands for
`Default::default()` of the cell-converter state. -/
def Converter.new {σ : Type} (dflt : σ)
    (output_constraints input_image_dimensions cpixel_dimensions : Dimensions)
    (maximize_contrast : Bool) : Converter σ :=
  { converter := dflt
    cpixel_dimensions := cpixel_dimensions
    output_constraints := output_constraints
    input_image_dimensions := input_image_dimensions
    output_dimensions := Converter.generate_output_dimensions
      input_image_dimensions output_constraints cpixel_dimensions
    maximize_contrast := maximize_contrast }

/-- `Converter::maximizing_contrast_on` from `src/converter.rs`. -/
def Converter.maximizing_contrast_on {σ : Type} (c : Converter σ) : Bool :=
  c.maximize_contrast

/-- `Converter::with_settings` from `src/converter.rs`: consumes the instance,
carries over the cell-converter state and the contrast flag, stores the three
new settings and derives `output_dimensions` afresh. -/
def Converter.with_settings {σ : Type} (c : Converter σ)
    (output_constraints input_image_dimensions cpixel_dimensions :
      Dimensions) : Converter σ :=
  { converter := c.converter
    output_constraints := output_constraints
    input_image_dimensions := input_image_dimensions
    cpixel_dimensions := cpixel_dimensions
    output_dimensions := Converter.generate_output_dimensions
      input_image_dimensions output_constraints cpixel_dimensions
    maximize_contrast := c.maximize_contrast }

/-- `Converter::convert_one` from `src/converter.rs`:
`self.converter.convert_one(&image.resize(&self.output_dimensions),
&self.cpixel_dimensions)`.  The call on the external cell-converter, which
takes `&mut self.converter`, is embedded as a state-passing function `step`;
the returned converter is `self` with only the `converter` field replaced,
exactly as a `&mut self` method that assigns no other field. -/
def Converter.convert_one {σ : Type}
    (step : σ → BitmapImage Nat → Dimensions → σ × BitmapImage Cpixel)
    (c : Converter σ) (image : BitmapImage Nat) :
    Converter σ × BitmapImage Cpixel :=
  let res := step c.converter (image.resize c.output_dimensions)
    c.cpixel_dimensions
  ({ c with converter := res.1 }, res.2)

/-- The spec-modelled cell-converter packaged as a stateless step function,
for instantiating the generic theorems at concrete inputs. -/
def specStep (ramp : Nat → Char) :
    Unit → BitmapImage Nat → Dimensions → Unit × BitmapImage Cpixel :=
  fun _ img cell => ((), CpixelConverter.convert_one ramp img cell)

theorem div_le_of_le_mul {x k n : Nat} (hn : 0 < n) (h : x ≤ k * n) :
    x / n ≤ k := by
  have h1 : x / n ≤ k * n / n := Nat.div_le_div_right h
  simpa [Nat.mul_div_cancel _ hn] using h1

theorem fit_locked_le (s b : Dimensions) :
    (Dimensions.fit_locked s b).height ≤ b.height
      ∧ (Dimensions.fit_locked s b).width ≤ b.width := by
  unfold Dimensions.fit_locked
  split_ifs with h1 h2 h3
  · exact ⟨Nat.zero_le _, Nat.zero_le _⟩
  · exact ⟨Nat.zero_le _, Nat.zero_le _⟩
  · refine ⟨le_refl _, ?_⟩
    have hsh : 0 < s.height := Nat.pos_of_ne_zero (by tauto)
    exact div_le_of_le_mul hsh (by nlinarith)
  · refine ⟨?_, le_refl _⟩
    have hsw : 0 < s.width := Nat.pos_of_ne_zero (by tauto)
    exact div_le_of_le_mul hsw (by nlinarith)

/-- C1: for every `output_constraints`, `input_image_dimensions`,
`cpixel_dimensions` and `maximize_contrast` flag, `Converter::new` derives
`output_dimensions` exactly as the aspect-locked fit of
`input_image_dimensions` into `screen_in_pixels`, where `screen_in_pixels`
has height `output_constraints.height * cpixel_dimensions.height` and width
`output_constraints.width * cpixel_dimensions.width`. -/
theorem new_output_dimensions_eq_fit {σ : Type} (dflt : σ)
    (oc iid cd : Dimensions) (mc : Bool) :
    (Converter.new dflt oc iid cd mc).output_dimensions
      = Dimensions.fit_locked iid
          ⟨oc.height * cd.height, oc.width * cd.width⟩ := rfl

/-- C2: for every configured Converter and every input image, `convert_one`
returns exactly what the external cell-converter's `convert_one` returns on
the image resized to the derived `output_dimensions`, paired with the
configured `cpixel_dimensions` — and the carried cell-converter state is the
one the external call produced. -/
theorem convert_one_delegates {σ : Type}
    (step : σ → BitmapImage Nat → Dimensions → σ × BitmapImage Cpixel)
    (c : Converter σ) (img : BitmapImage Nat) :
    (Converter.convert_one step c img).2
        = (step c.converter (img.resize c.output_dimensions)
            c.cpixel_dimensions).2
      ∧ (Converter.convert_one step c img).1.converter
        = (step c.converter (img.resize c.output_dimensions)
            c.cpixel_dimensions).1 :=
  ⟨rfl, rfl⟩

/-- C3 counterexample: a Converter configured for 1x1 input images, applied
to a 2x2 image, does not surface any dimension-mismatch error: `convert_one`
has no error channel and returns the very same normal output as it does on a
well-dimensioned 1x1 image with the same pixel value. -/
theorem convert_one_mismatch_is_silent :
    (⟨⟨2, 2⟩, [7, 7, 7, 7]⟩ : BitmapImage Nat).dimensions
        ≠ (Converter.new () ⟨1, 1⟩ ⟨1, 1⟩ ⟨1, 1⟩ false).input_image_dimensions
      ∧ (Converter.convert_one (specStep ramp0)
            (Converter.new () ⟨1, 1⟩ ⟨1, 1⟩ ⟨1, 1⟩ false)
            ⟨⟨2, 2⟩, [7, 7, 7, 7]⟩).2
        = (Converter.convert_one (specStep ramp0)
            (Converter.new () ⟨1, 1⟩ ⟨1, 1⟩ ⟨1, 1⟩ false)
            ⟨⟨1, 1⟩, [7]⟩).2 := by decide

theorem convert_one_spec_dims (ramp : Nat → Char) (c : Converter Unit)
    (img : BitmapImage Nat) :
    (Converter.convert_one (specStep ramp) c img).2.dimensions
      = ⟨c.output_dimensions.height / c.cpixel_dimensions.height,
         c.output_dimensions.width / c.cpixel_dimensions.width⟩ := rfl

/-- C3 amended: `convert_one` never checks the input image's dimensions and
has no error channel; every input, mismatched or not, is resized to the
derived `output_dimensions` first, so the output geometry is a function of
the configuration alone and mismatched input never yields mismatched output
geometry. -/
theorem convert_one_geometry_ignores_input (ramp : Nat → Char)
    (c : Converter Unit) (img img2 : BitmapImage Nat) :
    (Converter.convert_one (specStep ramp) c img).2.dimensions
      = (Converter.convert_one (specStep ramp) c img2).2.dimensions :=
  (convert_one_spec_dims ramp c img).trans
    (convert_one_spec_dims ramp c img2).symm

/-- C4 counterexample: with `output_constraints = {1,1}` cells,
`cpixel_dimensions = {2,2}` and `input_image_dimensions = {1,2}`, the screen
is `{2,2}` pixels, the aspect-locked fit is `{1,2}`, and `convert_one` on a
matching 1x2 image returns a bitmap of dimensions `{0,1}`, not the
constraints `{1,1}`. -/
theorem convert_one_dims_ne_constraints :
    (Converter.convert_one (specStep ramp0)
          (Converter.new () ⟨1, 1⟩ ⟨1, 2⟩ ⟨2, 2⟩ false)
          ⟨⟨1, 2⟩, [0, 255]⟩).2.dimensions = ⟨0, 1⟩
      ∧ (⟨0, 1⟩ : Dimensions)
        ≠ (Converter.new () ⟨1, 1⟩ ⟨1, 2⟩ ⟨2, 2⟩ false).output_constraints := by
  decide

/-- C4 amended: for every configuration and input image, the bitmap returned
by `convert_one` has dimensions `output_dimensions` divided componentwise by
`cpixel_dimensions`; this never exceeds `output_constraints` in either axis
but can be strictly smaller. -/
theorem convert_one_dims_eq_output_div_cell (ramp : Nat → Char)
    (oc iid cd : Dimensions) (mc : Bool) (img : BitmapImage Nat) :
    (Converter.convert_one (specStep ramp)
          (Converter.new () oc iid cd mc) img).2.dimensions
        = ⟨(Converter.new () oc iid cd mc).output_dimensions.height / cd.height,
           (Converter.new () oc iid cd mc).output_dimensions.width / cd.width⟩
      ∧ (Converter.convert_one (specStep ramp)
          (Converter.new () oc iid cd mc) img).2.dimensions.height ≤ oc.height
      ∧ (Converter.convert_one (specStep ramp)
          (Converter.new () oc iid cd mc) img).2.dimensions.width ≤ oc.width := by
  have hd := convert_one_spec_dims ramp (Converter.new () oc iid cd mc) img
  refine ⟨hd, ?_, ?_⟩
  · rw [hd]
    show (Converter.new () oc iid cd mc).output_dimensions.height / cd.height
      ≤ oc.height
    rcases Nat.eq_zero_or_pos cd.height with h0 | hpos
    · simp [h0]
    · exact div_le_of_le_mul hpos
        ((fit_locked_le iid ⟨oc.height * cd.height, oc.width * cd.width⟩).1)
  · rw [hd]
    show (Converter.new () oc iid cd mc).output_dimensions.width / cd.width
      ≤ oc.width
    rcases Nat.eq_zero_or_pos cd.width with h0 | hpos
    · simp [h0]
    · exact div_le_of_le_mul hpos
        ((fit_locked_le iid ⟨oc.height * cd.height, oc.width * cd.width⟩).2)

/-- C5 counterexample: the `u8` `average` is not commutative
(`average 1 0 = 1` but `average 0 1 = 0`), and at `a = b = 255` the result
`126` falls outside `[min 255 255, max 255 255]` — the narrowing back to `u8`
wraps. -/
theorem average_not_commutative_midpoint :
    u8.average 1 0 = 1 ∧ u8.average 0 1 = 0
      ∧ u8.average 255 255 = 126
      ∧ ¬(min 255 255 ≤ u8.average 255 255
            ∧ u8.average 255 255 ≤ max 255 255) := by decide

/-- C5 amended: for `u8` intensities `a` and `b`, `average a b` equals
`(a + b / 2) % 256`: the widening to `u16` keeps the intermediate sum below
`2 ^ 16`, but the operation is asymmetric, need not lie between the two
inputs, and the final narrowing to `u8` truncates modulo 256 whenever
`a + b / 2 > 255`. -/
theorem average_formula (a b : Nat) (ha : a < 256) (hb : b < 256) :
    u8.average a b = (a + b / 2) % 256 ∧ a + b / 2 < 65536 := by
  unfold u8.average
  omega

theorem average_formula_witness :
    u8.average 10 20 = (10 + 20 / 2) % 256 ∧ 10 + 20 / 2 < 65536 :=
  average_formula 10 20 (by decide) (by decide)

/-- C6: for the `u8` Brightness implementation, `average (min ()) (max ())`,
that is `average 0 255`, lies within the closed interval `[0, 255]` — no
overflow wraparound occurs on this input. -/
theorem average_min_max_in_range :
    u8.min ≤ u8.average u8.min u8.max
      ∧ u8.average u8.min u8.max ≤ u8.max := by decide

/-- C7: for all `u8` intensities, the implemented `average` computes
`a + b / 2` in `u16` (only `b` is halved) narrowed to `u8`, i.e.
`(a + b / 2) % 256`, and this differs from the symmetric midpoint
`(a + b) / 2` (at `a = 1`, `b = 0` it yields `1`, not `0`). -/
theorem average_is_a_plus_half_b :
    (∀ a b : Nat, a < 256 → b < 256 →
        u8.average a b = (a + b / 2) % 256)
      ∧ u8.average 1 0 ≠ (1 + 0) / 2 := by
  constructor
  · intro a b ha hb
    unfold u8.average
    omega
  · decide

theorem average_is_a_plus_half_b_witness :
    u8.average 3 9 = (3 + 9 / 2) % 256 :=
  average_is_a_plus_half_b.1 3 9 (by decide) (by decide)

/-- C8: `with_settings` keeps the contrast flag and the cell-converter state
of the consumed instance, and its four configuration fields and its freshly
derived `output_dimensions` coincide field by field with those of a Converter
built by `new` from the new settings and the old flag. -/
theorem with_settings_eq_fresh_new {σ : Type} (c : Converter σ) (dflt : σ)
    (oc iid cd : Dimensions) :
    (c.with_settings oc iid cd).maximize_contrast = c.maximize_contrast
      ∧ (c.with_settings oc iid cd).converter = c.converter
      ∧ (c.with_settings oc iid cd).output_constraints
        = (Converter.new dflt oc iid cd c.maximize_contrast).output_constraints
      ∧ (c.with_settings oc iid cd).input_image_dimensions
        = (Converter.new dflt oc iid cd
            c.maximize_contrast).input_image_dimensions
      ∧ (c.with_settings oc iid cd).cpixel_dimensions
        = (Converter.new dflt oc iid cd c.maximize_contrast).cpixel_dimensions
      ∧ (c.with_settings oc iid cd).maximize_contrast
        = (Converter.new dflt oc iid cd c.maximize_contrast).maximize_contrast
      ∧ (c.with_settings oc iid cd).output_dimensions
        = (Converter.new dflt oc iid cd c.maximize_contrast).output_dimensions :=
  ⟨rfl, rfl, rfl, rfl, rfl, rfl, rfl⟩

/-- C9: a call to `convert_one` leaves the Converter's `cpixel_dimensions`,
`output_constraints`, `input_image_dimensions`, `output_dimensions` and
`maximize_contrast` fields unchanged; only the cell-converter state field can
differ in the returned instance. -/
theorem convert_one_preserves_config {σ : Type}
    (step : σ → BitmapImage Nat → Dimensions → σ × BitmapImage Cpixel)
    (c : Converter σ) (img : BitmapImage Nat) :
    (Converter.convert_one step c img).1.cpixel_dimensions
        = c.cpixel_dimensions
      ∧ (Converter.convert_one step c img).1.output_constraints
        = c.output_constraints
      ∧ (Converter.convert_one step c img).1.input_image_dimensions
        = c.input_image_dimensions
      ∧ (Converter.convert_one step c img).1.output_dimensions
        = c.output_dimensions
      ∧ (Converter.convert_one step c img).1.maximize_contrast
        = c.maximize_contrast :=
  ⟨rfl, rfl, rfl, rfl, rfl⟩

/-- C10: two Converters built from identical settings but opposite
`maximize_contrast` flags produce identical `convert_one` output on every
input image and for every external cell-converter step — the flag is stored
and exposed by `maximizing_contrast_on` but never reaches the conversion
pipeline. -/
theorem convert_one_ignores_contrast_flag {σ : Type} (dflt : σ)
    (step : σ → BitmapImage Nat → Dimensions → σ × BitmapImage Cpixel)
    (oc iid cd : Dimensions) (img : BitmapImage Nat) :
    (Converter.convert_one step (Converter.new dflt oc iid cd true) img).2
        = (Converter.convert_one step
            (Converter.new dflt oc iid cd false) img).2
      ∧ (Converter.new dflt oc iid cd true).maximizing_contrast_on = true
      ∧ (Converter.new dflt oc iid cd false).maximizing_contrast_on = false :=
  ⟨rfl, rfl, rfl⟩
